import Mathlib

/-
Verification of the emissions-calculator repository: a shallow embedding of
src/src/lookup.py (the generic multi-criteria lookup engine with fallback
resolution) and src/src/emissions_calculator.py (the per-record emission
aggregator), together with theorems settling the specification claims.

Conventions of the embedding:
- Cell values are modelled by `Value`: a rational number, a string, or
  `null` (Python NaN / missing).  Equality follows pandas elementwise
  semantics: NaN compares unequal to everything, including itself, and a
  number never equals a string.
- Python exceptions are modelled by `Except PyErr`.  Ordering comparisons
  between a number and a string raise TypeError, as in Python 3.
- `bool(x)` on a pandas DataFrame raises ValueError ("truth value of a
  DataFrame is ambiguous"); on a Python list it is emptiness; this is
  modelled by `pyTruthy`.
- Rationals stand in for Python floats; non-numeric cell values reaching
  arithmetic are reported as exceptions (in Python a string operand raises
  TypeError and a NaN operand poisons the result; neither yields a normal
  numeric record, and no claim depends on distinguishing the two).
-/

set_option maxRecDepth 4000

namespace EmCalc

/-- A scalar cell value: a number, a string, or missing (pandas NaN). -/
inductive Value where
  | num (q : ℚ)
  | str (s : String)
  | null
deriving DecidableEq

/-- The Python exception classes that appear in lookup.py's except clause. -/
inductive PyErr where
  | keyError
  | valueError
  | typeError
deriving DecidableEq

/-- A row rendered as a Python dict: an association list from column name
to value (keys unique in well-formed inputs). -/
def Dict : Type := List (String × Value)

instance : DecidableEq Dict := by
  unfold Dict
  infer_instance

/-- First-match association lookup, the semantics of Python dict access. -/
def dictGet : Dict → String → Option Value
  | [], _ => none
  | (k2, v) :: rest, k => if k2 = k then some v else dictGet rest k

/-- A pandas DataFrame: a list of column names and a list of rows.  Each
row stores its cells as an association list; a cell absent from a row reads
as `null` (rows of a real DataFrame are rectangular, so this default is
never exercised on well-formed data). -/
structure DataFrame where
  columns : List String
  rows : List Dict
deriving DecidableEq

/-- The value of column `c` in row `r` (NaN when absent). -/
def getCell (r : Dict) (c : String) : Value :=
  (dictGet r c).getD .null

/-- `row.to_dict()`: all columns of the frame, in column order. -/
def rowToDict (df : DataFrame) (r : Dict) : Dict :=
  df.columns.map (fun c => (c, getCell r c))

/-- Elementwise `==` of pandas on object columns: numbers compare
numerically, strings compare as strings, NaN is unequal to everything
(itself included), and a number never equals a string. -/
def valueEq : Value → Value → Bool
  | .num a, .num b => decide (a = b)
  | .str a, .str b => decide (a = b)
  | _, _ => false

/-- Elementwise `<`: NaN comparisons are false; comparing a number with a
string raises TypeError, as in Python 3. -/
def valueLt : Value → Value → Except PyErr Bool
  | .num a, .num b => .ok (decide (a < b))
  | .str a, .str b => .ok (decide (a < b))
  | .null, .num _ => .ok false
  | .num _, .null => .ok false
  | .null, .null => .ok false
  | _, _ => .error .typeError

/-- Elementwise `>`. -/
def valueGt : Value → Value → Except PyErr Bool
  | .num a, .num b => .ok (decide (b < a))
  | .str a, .str b => .ok (decide (b < a))
  | .null, .num _ => .ok false
  | .num _, .null => .ok false
  | .null, .null => .ok false
  | _, _ => .error .typeError

/-- Elementwise `<=`. -/
def valueLe : Value → Value → Except PyErr Bool
  | .num a, .num b => .ok (decide (a ≤ b))
  | .str a, .str b => .ok (decide (a ≤ b) || decide (a = b))
  | .null, .num _ => .ok false
  | .num _, .null => .ok false
  | .null, .null => .ok false
  | _, _ => .error .typeError

/-- Elementwise `>=`. -/
def valueGe : Value → Value → Except PyErr Bool
  | .num a, .num b => .ok (decide (b ≤ a))
  | .str a, .str b => .ok (decide (b ≤ a) || decide (a = b))
  | .null, .num _ => .ok false
  | .num _, .null => .ok false
  | .null, .null => .ok false
  | _, _ => .error .typeError

/-- One criterion value from the `criteria` dict of lookup.py: a literal
(equality), an `(operator, value)` pair, a `(column, operator, value)`
triple, or a tuple whose length is neither 2 nor 3. -/
inductive CritVal where
  | lit (v : Value)
  | tup2 (op : String) (v : Value)
  | tup3 (c : String) (op : String) (v : Value)
  | tupBad
deriving DecidableEq

/-- A criteria dict: association list from column name to criterion. -/
def Criteria : Type := List (String × CritVal)

instance : DecidableEq Criteria := by
  unfold Criteria
  infer_instance

/-- The `df` argument of lookup: either an actual DataFrame or some other
Python object (which `_perform_lookup` rejects with TypeError). -/
inductive DfArg where
  | df (d : DataFrame)
  | notDf

/-- The `criteria` argument of lookup: a dict or some other object. -/
inductive CritArg where
  | dict (c : Criteria)
  | notDict

/-- The `output_format` string selecting a DataFrame result. -/
def fmtDf : String := "dataframe"

/-- The default `output_format` string selecting a list of dicts. -/
def fmtDict : String := "dictionary_list"

/-- A lookup result: a DataFrame or a Python list of dicts. -/
inductive LookupResult where
  | dfRes (d : DataFrame)
  | listRes (l : List Dict)
deriving DecidableEq

/-- Decidable equality of outcomes, for evaluating concrete lookups. -/
def exceptDecEq {e a : Type} [DecidableEq e] [DecidableEq a] :
    DecidableEq (Except e a)
  | .error e1, .error e2 =>
      if h : e1 = e2 then .isTrue (by rw [h]) else
        .isFalse (fun hh => h (Except.error.inj hh))
  | .error _, .ok _ => .isFalse Except.noConfusion
  | .ok _, .error _ => .isFalse Except.noConfusion
  | .ok a1, .ok a2 =>
      if h : a1 = a2 then .isTrue (by rw [h]) else
        .isFalse (fun hh => h (Except.ok.inj hh))

instance {e a : Type} [DecidableEq e] [DecidableEq a] : DecidableEq (Except e a) :=
  exceptDecEq

/-- `df[col]` as a whole column: KeyError when the column is absent. -/
def getColVals (df : DataFrame) (col : String) : Except PyErr (List Value) :=
  if df.columns.contains col then
    .ok (df.rows.map (fun r => getCell r col))
  else
    .error .keyError

/-- The five comparator tokens accepted by `_perform_lookup`. -/
def validOp (op : String) : Bool :=
  op = ">" || op = "<" || op = ">=" || op = "<=" || op = "="

/-- The operator dispatch of `_perform_lookup`: apply one comparator to a
whole column, raising ValueError on an unknown token (the column itself is
only touched inside a recognised branch, so an unknown token raises before
any KeyError could). -/
def opMask (df : DataFrame) (col : String) (op : String) (v : Value) :
    Except PyErr (List Bool) :=
  if op = ">" then do
    let vals ← getColVals df col
    vals.mapM (fun x => valueGt x v)
  else if op = "<" then do
    let vals ← getColVals df col
    vals.mapM (fun x => valueLt x v)
  else if op = ">=" then do
    let vals ← getColVals df col
    vals.mapM (fun x => valueGe x v)
  else if op = "<=" then do
    let vals ← getColVals df col
    vals.mapM (fun x => valueLe x v)
  else if op = "=" then do
    let vals ← getColVals df col
    pure (vals.map (fun x => valueEq x v))
  else
    .error .valueError

/-- The per-criterion mask of `_perform_lookup`: tuple-shape dispatch (a
3-tuple redirects the column, a 2-tuple keeps the key's column, any other
tuple length raises ValueError), then operator application; a plain value
is an equality test. -/
def critMask (df : DataFrame) (col : String) : CritVal → Except PyErr (List Bool)
  | .lit v => do
      let vals ← getColVals df col
      pure (vals.map (fun x => valueEq x v))
  | .tup2 op v => opMask df col op v
  | .tup3 c op v => opMask df c op v
  | .tupBad => .error .valueError

/-- Conjunction of two row masks (`combined_mask &= criteria_mask`). -/
def andMask (a b : List Bool) : List Bool :=
  List.zipWith (fun x y => x && y) a b

/-- The combined mask over all criteria, starting from all-true and
intersecting each criterion's mask in order; the first failing criterion
raises. -/
def computeMask (df : DataFrame) : Criteria → Except PyErr (List Bool)
  | [] => .ok (df.rows.map (fun _ => true))
  | (col, cv) :: rest => do
      let m ← critMask df col cv
      let m2 ← computeMask df rest
      pure (andMask m2 m)

/-- `df[combined_mask]`: the rows at the true positions of the mask. -/
def applyMask : List Dict → List Bool → List Dict
  | r :: rs, b :: bs => if b then r :: applyMask rs bs else applyMask rs bs
  | _, _ => []

/-- The empty result returned at lookup's boundary:
`pd.DataFrame() if output_format == 'dataframe' else []`. -/
def emptyResult (fmt : String) : LookupResult :=
  if fmt = fmtDf then .dfRes ⟨[], []⟩ else .listRes []

/-- `_perform_lookup(df, criteria, output_columns, output_format)`:
validates the argument types, builds the combined mask, filters the rows,
and renders them in the requested format, projecting to `output_columns`
when given (a requested column absent from the frame raises KeyError; in
the dictionary-list format that per-row access only runs when at least one
row matched). -/
def perform_lookup (dfa : DfArg) (crit : CritArg) (oc : Option (List String))
    (fmt : String) : Except PyErr LookupResult :=
  match dfa with
  | .notDf => .error .typeError
  | .df df =>
  match crit with
  | .notDict => .error .typeError
  | .dict c => do
  let mask ← computeMask df c
  let matched := applyMask df.rows mask
  if fmt = fmtDf then
    match oc with
    | none => pure (.dfRes ⟨df.columns, matched⟩)
    | some cols =>
        if cols.all (fun k => df.columns.contains k) then
          pure (.dfRes ⟨cols, matched.map (fun r => cols.map (fun k => (k, getCell r k)))⟩)
        else
          .error .keyError
  else if fmt = fmtDict then
    if 0 < matched.length then
      match oc with
      | none => pure (.listRes (matched.map (fun r => rowToDict df r)))
      | some cols =>
          if cols.all (fun k => df.columns.contains k) then
            pure (.listRes (matched.map (fun r => cols.map (fun k => (k, getCell r k)))))
          else
            .error .keyError
    else
      pure (.listRes [])
  else
    .error .valueError

/-- `if result:` on a lookup result: emptiness for a list, but a ValueError
for a DataFrame (`bool(DataFrame)` always raises "the truth value of a
DataFrame is ambiguous"). -/
def pyTruthy : LookupResult → Except PyErr Bool
  | .listRes l => .ok (decide (l ≠ []))
  | .dfRes _ => .error .valueError

/-- `updated_criteria = criteria.copy(); updated_criteria.update(overlay)`:
existing keys are overwritten in place, new keys are appended in overlay
order. -/
def critUpdate (orig overlay : Criteria) : Criteria :=
  orig.map (fun p => (p.1, match overlay.lookup p.1 with
    | some cv => cv
    | none => p.2)) ++
  overlay.filter (fun p => (orig.lookup p.1).isNone)

/-- The fallback loop of `lookup`: each overlay is merged onto a fresh copy
of the original criteria, the lookup is re-run, and the first truthy result
is returned; an exhausted sequence yields the empty result. -/
def runFallbacks (dfa : DfArg) (c : Criteria) (oc : Option (List String))
    (fmt : String) : List Criteria → Except PyErr LookupResult
  | [] => pure (emptyResult fmt)
  | f :: rest => do
      let r ← perform_lookup dfa (.dict (critUpdate c f)) oc fmt
      let t ← pyTruthy r
      if t then pure r else runFallbacks dfa c oc fmt rest

/-- The body of `lookup` before its try/except: primary attempt, truthiness
test, then the fallback loop (reached only when the criteria argument was a
dict, which the primary attempt has already ensured). -/
def lookupExc (dfa : DfArg) (crit : CritArg) (oc : Option (List String))
    (fmt : String) (fallback : Option (List Criteria)) : Except PyErr LookupResult := do
  let r ← perform_lookup dfa crit oc fmt
  let t ← pyTruthy r
  if t then
    pure r
  else
    match crit, fallback with
    | .dict c, some fbs => runFallbacks dfa c oc fmt fbs
    | _, _ => pure (emptyResult fmt)

/-- `lookup(df, criteria, output_columns, output_format, fallback_criteria)`:
the whole body runs under `try`, and every KeyError, IndexError, TypeError
or ValueError is converted to the empty result for the requested format. -/
def lookup (dfa : DfArg) (crit : CritArg) (oc : Option (List String))
    (fmt : String) (fallback : Option (List Criteria)) : LookupResult :=
  match lookupExc dfa crit oc fmt fallback with
  | .ok r => r
  | .error _ => emptyResult fmt

/-! Embedding of src/src/emissions_calculator.py. -/

/-- One row of the operation table, with the fields the calculator reads.
`target_completion_year` is kept as an integer (it is compared with the
current calendar year and interpolated into a column name). -/
structure OpRecord where
  operation_id : Value
  entity : Value
  fuel_type : Value
  fuel_amount : Value
  operating_distance : Value
  refrigerator_type : Value
  refrigerant_type : Value
  refrigerant_charge : Value
  number_of_refrigerators : Value
  vehicle_subcategory : Value
  vehicle_production_year : Value
  vehicle_manufacturer : Value
  tru_subcategory : Value
  tru_model_year : Value
  tru_refrigerant_type : Value
  tru_number_of_vehicle_units : Value
  tru_refrigerant_charge : Value
  livestock_type : Value
  livestock_count : Value
  fertilizer_type : Value
  fertilizer_amount : Value
  waste_type : Value
  waste_amount : Value
  target_completion_year : ℤ
  state_or_province : Value

/-- True when every character is a decimal digit. -/
def allDigits (cs : List Char) : Bool := cs.all Char.isDigit

/-- The natural number denoted by a digit string. -/
def digitsToNat (cs : List Char) : ℕ :=
  cs.foldl (fun n c => 10 * n + (c.toNat - 48)) 0

/-- Parse an unsigned decimal literal (digits with at most one dot, at
least one digit overall), the numeric-string grammar accepted by
`pd.to_numeric`. -/
def parseUnsigned (cs : List Char) : Option ℚ :=
  let intPart := cs.takeWhile (fun c => c ≠ '.')
  let rest := cs.dropWhile (fun c => c ≠ '.')
  match rest with
  | [] =>
      if allDigits intPart && decide (intPart ≠ []) then
        some (digitsToNat intPart)
      else
        none
  | _ :: frac =>
      if allDigits intPart && allDigits frac &&
          (decide (intPart ≠ []) || decide (frac ≠ [])) then
        some ((digitsToNat intPart : ℚ) + (digitsToNat frac : ℚ) / ((10 : ℚ) ^ frac.length))
      else
        none

/-- `pd.to_numeric(x, errors='coerce')`: a number passes through, a string
is parsed as a decimal literal (with optional sign), and anything else —
missing values included — coerces to NaN, modelled as `none`. -/
def toNumeric : Value → Option ℚ
  | .num q => some q
  | .null => none
  | .str s =>
      match s.toList with
      | '-' :: rest => (parseUnsigned rest).map (fun q => -q)
      | '+' :: rest => parseUnsigned rest
      | cs => parseUnsigned cs

/-- The per-field normalization of stage 2: coerce to a number, and replace
a failed coercion (NaN) by 0.  Total — it never raises. -/
def toNumericOr0 (v : Value) : ℚ := (toNumeric v).getD 0

/-- The nine numeric fields produced by stage 2 of the calculator. -/
structure NumFields where
  fuel_amount : ℚ
  refrigerant_charge : ℚ
  number_of_refrigerators : ℚ
  operating_distance : ℚ
  tru_number_of_vehicle_units : ℚ
  tru_refrigerant_charge : ℚ
  livestock_count : ℚ
  fertilizer_amount : ℚ
  waste_amount : ℚ
deriving DecidableEq

/-- Stage 2 of the calculator: coerce the nine numeric input fields,
treating any failed coercion as 0. -/
def normalizeRecord (r : OpRecord) : NumFields :=
  { fuel_amount := toNumericOr0 r.fuel_amount
    refrigerant_charge := toNumericOr0 r.refrigerant_charge
    number_of_refrigerators := toNumericOr0 r.number_of_refrigerators
    operating_distance := toNumericOr0 r.operating_distance
    tru_number_of_vehicle_units := toNumericOr0 r.tru_number_of_vehicle_units
    tru_refrigerant_charge := toNumericOr0 r.tru_refrigerant_charge
    livestock_count := toNumericOr0 r.livestock_count
    fertilizer_amount := toNumericOr0 r.fertilizer_amount
    waste_amount := toNumericOr0 r.waste_amount }

/-- The aggregator always requests the default dictionary-list format, for
which lookup returns a list; this extracts it (the DataFrame branch is
unreachable on those calls). -/
def asList : LookupResult → List Dict
  | .listRes l => l
  | .dfRes _ => []

/-- `xs[0][col] if xs else 0`: the first returned row's value for `col`,
or the Python integer 0 when no row was returned. -/
def field0 (l : List Dict) (col : String) : Value :=
  match l with
  | [] => .num 0
  | d :: _ => (dictGet d col).getD .null

/-- `xs[0].get(col, 0) if xs else 0`: like `field0` but with a defaulting
dict access on the first row. -/
def field0get (l : List Dict) (col : String) : Value :=
  match l with
  | [] => .num 0
  | d :: _ => (dictGet d col).getD (.num 0)

/-- A looked-up factor entering float arithmetic.  A numeric value is used
directly; a string operand raises TypeError in Python, and a NaN operand
poisons the arithmetic with NaN — neither produces a normal numeric record,
and the embedding reports both as exceptions. -/
def valToQ : Value → Except PyErr ℚ
  | .num q => .ok q
  | .str _ => .error .typeError
  | .null => .error .valueError

/-- Python truthiness of a scalar: zero and the empty string are falsy,
every other number and string is truthy, and NaN is truthy. -/
def pyTruthyVal : Value → Bool
  | .num q => decide (q ≠ 0)
  | .str s => decide (s ≠ "")
  | .null => true

/-- `'mobile' if row['entity'] == 'vehicle' and row['fuel_type'] !=
'Electricity' else 'stationary'`. -/
def fuelMode (r : OpRecord) : String :=
  if valueEq r.entity (.str "vehicle") && !valueEq r.fuel_type (.str "Electricity") then
    "mobile"
  else
    "stationary"

/-- The fuel-factor column name for a year: `f'co2e_{year}'`. -/
def co2eCol (y : ℤ) : String := "co2e_" ++ toString y

/-- The fuel-emission-factor resolution (lines 160-179 of the calculator):
one lookup keyed by fuel type, derived mode and jurisdiction, with a single
fallback relaxing the jurisdiction to "Any", requesting the current-year
and target-year factor columns; returns (current factor, forecast factor).
When the target year equals the current year and exactly one row was
returned, the current-year factor is reused as the forecast factor. -/
def resolveFuelFactors (fuel_data : DataFrame) (r : OpRecord) (currentYear : ℤ) :
    Value × Value :=
  let current_year_co2e := co2eCol currentYear
  let target_year_co2e := co2eCol r.target_completion_year
  let fuel_emission_factors := asList (lookup (.df fuel_data)
    (.dict [("fuel_type", .lit r.fuel_type),
            ("fuel_mode", .lit (.str (fuelMode r))),
            ("state_or_province", .lit r.state_or_province)])
    (some [current_year_co2e, target_year_co2e]) fmtDict
    (some [[("state_or_province", .lit (.str "Any"))]]))
  let current := field0get fuel_emission_factors current_year_co2e
  let forecast :=
    if r.target_completion_year = currentYear ∧ fuel_emission_factors.length = 1 then
      current
    else
      field0get fuel_emission_factors target_year_co2e
  (current, forecast)

/-- The vehicle-fuel-efficiency resolution (lines 144-158): keyed by
subcategory, fuel type, production year and manufacturer, with the ordered
fallback sequence relaxing production year to 0, manufacturer to "Others",
then both. -/
def resolveVehicleFuelEfficiency (vehicle_interventions : DataFrame) (r : OpRecord) :
    Value :=
  field0 (asList (lookup (.df vehicle_interventions)
    (.dict [("vehicle_subcategory", .lit r.vehicle_subcategory),
            ("fuel_type", .lit r.fuel_type),
            ("vehicle_production_year", .lit r.vehicle_production_year),
            ("vehicle_manufacturer", .lit r.vehicle_manufacturer)])
    (some ["fuel_efficiency"]) fmtDict
    (some [[("vehicle_production_year", .lit (.num 0))],
           [("vehicle_manufacturer", .lit (.str "Others"))],
           [("vehicle_production_year", .lit (.num 0)),
            ("vehicle_manufacturer", .lit (.str "Others"))]])))
    "fuel_efficiency"

/-- The vehicle subtotal (lines 216-217): truthiness of the resolved
efficiency guards the division, so an efficiency of 0 yields 0 rather than
a division by zero. -/
def vehicleEmissions (effV : Value) (operating_distance forecast current : ℚ) :
    Except PyErr ℚ :=
  if pyTruthyVal effV then do
    let e ← valToQ effV
    pure (operating_distance / e * ((forecast + current) / 2))
  else
    pure 0

/-- The seven per-category subtotals of one record. -/
structure Subtotals where
  fuel : ℚ
  vehicle : ℚ
  refrigerant : ℚ
  livestock : ℚ
  fertilizer : ℚ
  waste : ℚ
  tru : ℚ
deriving DecidableEq

/-- Stages 1-3 of the calculator for one operational record: the nine
lookups, the numeric normalization, and the seven subtotal formulas. -/
def computeSubtotals (fuel_data refrigerant_gwp refrigerator_data vehicle_interventions
    vehicle_interventions_tru farm_emissions : DataFrame) (currentYear : ℤ)
    (r : OpRecord) : Except PyErr Subtotals := do
  let annual_leakage_rate := field0 (asList (lookup (.df refrigerator_data)
    (.dict [("refrigerator_type", .lit r.refrigerator_type)])
    (some ["annual_leakage_rate"]) fmtDict none)) "annual_leakage_rate"
  let refrigerant_gwp_value := field0 (asList (lookup (.df refrigerant_gwp)
    (.dict [("refrigerant_type", .lit r.refrigerant_type)])
    (some ["refrigerant_gwp"]) fmtDict none)) "refrigerant_gwp"
  let tru_annual_leakage_rate := field0 (asList (lookup (.df refrigerator_data)
    (.dict [("refrigerator_type", .lit (.str "Transportation Refrigeration Unit"))])
    (some ["annual_leakage_rate"]) fmtDict none)) "annual_leakage_rate"
  let tru_refrigerant_gwp_value := field0 (asList (lookup (.df refrigerant_gwp)
    (.dict [("refrigerant_type", .lit r.tru_refrigerant_type)])
    (some ["refrigerant_gwp"]) fmtDict none)) "refrigerant_gwp"
  let tru_data := asList (lookup (.df vehicle_interventions_tru)
    (.dict [("tru_type", .lit r.tru_subcategory),
            ("model_year", .lit r.tru_model_year)])
    (some ["co2e_per_kwh_diesel_tru", "tru_power_rating", "average_load_factor",
           "tru_annual_hours", "tru_plug_in_fraction_of_hours"]) fmtDict none)
  let emission_factor_diesel_tru := field0 tru_data "co2e_per_kwh_diesel_tru"
  let tru_power_rating := field0 tru_data "tru_power_rating"
  let average_tru_load_factor := field0 tru_data "average_load_factor"
  let tru_annual_hours := field0 tru_data "tru_annual_hours"
  let tru_plug_in_fraction_of_hours := field0 tru_data "tru_plug_in_fraction_of_hours"
  let emission_per_unit_livestock := field0 (asList (lookup (.df farm_emissions)
    (.dict [("subcategory", .lit r.livestock_type)])
    (some ["emission_per_unit"]) fmtDict none)) "emission_per_unit"
  let emission_per_unit_fertilizer := field0 (asList (lookup (.df farm_emissions)
    (.dict [("subcategory", .lit r.fertilizer_type)])
    (some ["emission_per_unit"]) fmtDict none)) "emission_per_unit"
  let emission_per_unit_waste := field0 (asList (lookup (.df farm_emissions)
    (.dict [("subcategory", .lit r.waste_type)])
    (some ["emission_per_unit"]) fmtDict none)) "emission_per_unit"
  let vehicle_fuel_efficiency := resolveVehicleFuelEfficiency vehicle_interventions r
  let ff := resolveFuelFactors fuel_data r currentYear
  let fuel_emission_factor_current ← valToQ ff.1
  let fuel_emission_factor_forecast ← valToQ ff.2
  let n := normalizeRecord r
  let fuel_emissions := n.fuel_amount *
    (fuel_emission_factor_forecast + fuel_emission_factor_current) / 2
  let vehicle_emissions ← vehicleEmissions vehicle_fuel_efficiency
    n.operating_distance fuel_emission_factor_forecast fuel_emission_factor_current
  let leak ← valToQ annual_leakage_rate
  let gwpQ ← valToQ refrigerant_gwp_value
  let refrigerant_emissions := n.refrigerant_charge * leak * gwpQ * n.number_of_refrigerators
  let liveF ← valToQ emission_per_unit_livestock
  let livestock_emissions := n.livestock_count * liveF
  let fertF ← valToQ emission_per_unit_fertilizer
  let fertilizer_emissions := n.fertilizer_amount * fertF
  let wasteF ← valToQ emission_per_unit_waste
  let waste_emissions := n.waste_amount * wasteF
  let truDiesel ← valToQ emission_factor_diesel_tru
  let truPower ← valToQ tru_power_rating
  let truLoad ← valToQ average_tru_load_factor
  let truHours ← valToQ tru_annual_hours
  let truPlug ← valToQ tru_plug_in_fraction_of_hours
  let truGwp ← valToQ tru_refrigerant_gwp_value
  let truLeak ← valToQ tru_annual_leakage_rate
  let tru_emissions := (truPower * truLoad * truHours * truPlug * truDiesel +
    truGwp * n.tru_refrigerant_charge * truLeak) * n.tru_number_of_vehicle_units
  pure { fuel := fuel_emissions
         vehicle := vehicle_emissions
         refrigerant := refrigerant_emissions
         livestock := livestock_emissions
         fertilizer := fertilizer_emissions
         waste := waste_emissions
         tru := tru_emissions }

/-- One output row of the calculator. -/
structure EmissionRecord where
  operation_id : Value
  fuel_emissions : ℚ
  vehicle_emissions : ℚ
  refrigerant_emissions : ℚ
  livestock_emissions : ℚ
  fertilizer_emissions : ℚ
  waste_emissions : ℚ
  tru_emissions : ℚ
  total_emissions : ℚ
deriving DecidableEq

/-- Assembly of one output record (lines 233-247): the total is the direct
sum of the seven subtotals. -/
def mkEmissionRecord (opid : Value) (s : Subtotals) : EmissionRecord :=
  { operation_id := opid
    fuel_emissions := s.fuel
    vehicle_emissions := s.vehicle
    refrigerant_emissions := s.refrigerant
    livestock_emissions := s.livestock
    fertilizer_emissions := s.fertilizer
    waste_emissions := s.waste
    tru_emissions := s.tru
    total_emissions := s.fuel + s.vehicle + s.refrigerant + s.livestock +
      s.fertilizer + s.waste + s.tru }

/-- One loop iteration of `calculate_annual_emissions`. -/
def computeRecord (fuel_data refrigerant_gwp refrigerator_data vehicle_interventions
    vehicle_interventions_tru farm_emissions : DataFrame) (currentYear : ℤ)
    (r : OpRecord) : Except PyErr EmissionRecord :=
  (computeSubtotals fuel_data refrigerant_gwp refrigerator_data vehicle_interventions
    vehicle_interventions_tru farm_emissions currentYear r).map
    (mkEmissionRecord r.operation_id)

/-- The sequential per-record loop, appending one output record per input
record; an exception in any record aborts the whole run, as in Python. -/
def processRecords (f : OpRecord → Except PyErr EmissionRecord) :
    List OpRecord → Except PyErr (List EmissionRecord)
  | [] => .ok []
  | r :: rest => do
      let e ← f r
      let others ← processRecords f rest
      pure (e :: others)

/-- `calculate_annual_emissions(operation_data, fuel_data, refrigerant_gwp,
refrigerator_data, vehicle_interventions, vehicle_interventions_tru,
farm_emissions)`.  The current calendar year, read in the source from
`datetime.datetime.now().year`, is passed as the explicit final input. -/
def calculate_annual_emissions (operation_data : List OpRecord)
    (fuel_data refrigerant_gwp refrigerator_data vehicle_interventions
    vehicle_interventions_tru farm_emissions : DataFrame) (currentYear : ℤ) :
    Except PyErr (List EmissionRecord) :=
  processRecords (computeRecord fuel_data refrigerant_gwp refrigerator_data
    vehicle_interventions vehicle_interventions_tru farm_emissions currentYear)
    operation_data

/-! Helper definitions used by the statements of the claims. -/

/-- Projection of one matched row for the dictionary-list format: all
columns in frame order when no output columns are requested, otherwise the
requested columns. -/
def projectRow (df : DataFrame) (oc : Option (List String)) (r : Dict) : Dict :=
  match oc with
  | none => rowToDict df r
  | some cols => cols.map (fun k => (k, getCell r k))

/-- Whether a lookup attempt completed normally with a list result. -/
def isListOk : Except PyErr LookupResult → Bool
  | .ok (.listRes _) => true
  | _ => false

/-- The rows produced by one fallback attempt: the overlay is merged onto
the original criteria and the matching algorithm re-run. -/
def attemptRows (df : DataFrame) (c : Criteria) (oc : Option (List String))
    (f : Criteria) : List Dict :=
  match perform_lookup (.df df) (.dict (critUpdate c f)) oc fmtDict with
  | .ok (.listRes l) => l
  | _ => []

/-- The first non-empty row list among the attempts, or the empty list. -/
def firstNonEmpty : List (List Dict) → List Dict
  | [] => []
  | l :: rest => if l.isEmpty then firstNonEmpty rest else l

/-- A criterion whose evaluation raises: an unknown effective column, an
invalid comparator token, or a tuple of length other than 2 or 3. -/
def isBadCrit (df : DataFrame) (p : String × CritVal) : Bool :=
  match p.2 with
  | .lit _ => !df.columns.contains p.1
  | .tup2 op _ => !validOp op || !df.columns.contains p.1
  | .tup3 c op _ => !validOp op || !df.columns.contains c
  | .tupBad => true

/-! Concrete inputs used by witnesses and by the example claims. -/

/-- A DataFrame with no columns and no rows. -/
def emptyDf : DataFrame := ⟨[], []⟩

/-- An operational record with every field empty (missing) except the
operation identifier, and target completion year 0. -/
def nullRec : OpRecord :=
  { operation_id := .num 1
    entity := .null
    fuel_type := .null
    fuel_amount := .null
    operating_distance := .null
    refrigerator_type := .null
    refrigerant_type := .null
    refrigerant_charge := .null
    number_of_refrigerators := .null
    vehicle_subcategory := .null
    vehicle_production_year := .null
    vehicle_manufacturer := .null
    tru_subcategory := .null
    tru_model_year := .null
    tru_refrigerant_type := .null
    tru_number_of_vehicle_units := .null
    tru_refrigerant_charge := .null
    livestock_type := .null
    livestock_count := .null
    fertilizer_type := .null
    fertilizer_amount := .null
    waste_type := .null
    waste_amount := .null
    target_completion_year := 0
    state_or_province := .null }

/-- A three-row table for the lookup-engine witnesses. -/
def c1df : DataFrame :=
  ⟨["a", "b"],
   [[("a", .num 1), ("b", .str "x")],
    [("a", .num 2), ("b", .str "y")],
    [("a", .num 1), ("b", .str "z")]]⟩

/-- A one-row table whose single row matches the criterion of the
DataFrame-format example. -/
def c3df : DataFrame := ⟨["c"], [[("c", .num 1)]]⟩

/-- The fuel-factor table of the current-equals-target-year example: one
row with a factor of 1.2 for the current year and no target-year column. -/
def c7fuel : DataFrame :=
  ⟨["fuel_type", "fuel_mode", "state_or_province", "co2e_2024"],
   [[("fuel_type", .str "Diesel"), ("fuel_mode", .str "stationary"),
     ("state_or_province", .str "CA"), ("co2e_2024", .num 1.2)]]⟩

/-- The record of the current-equals-target-year example: fuel amount 100,
target completion year 2024. -/
def c7rec : OpRecord :=
  { nullRec with
    fuel_type := .str "Diesel"
    fuel_amount := .num 100
    state_or_province := .str "CA"
    target_completion_year := 2024
    entity := .str "farm" }

/-- The expected output of the current-equals-target-year example:
fuel emissions 100 times (1.2 + 1.2) / 2 = 120. -/
def c7out : EmissionRecord :=
  { operation_id := .num 1
    fuel_emissions := 120
    vehicle_emissions := 0
    refrigerant_emissions := 0
    livestock_emissions := 0
    fertilizer_emissions := 0
    waste_emissions := 0
    tru_emissions := 0
    total_emissions := 120 }

/-- The record of the end-to-end livestock example: 10 head of Cattle and
every other field empty. -/
def c10rec : OpRecord :=
  { nullRec with
    livestock_type := .str "Cattle"
    livestock_count := .num 10 }

/-- The farm-emissions table of the end-to-end livestock example. -/
def c10farm : DataFrame :=
  ⟨["subcategory", "emission_per_unit"],
   [[("subcategory", .str "Cattle"), ("emission_per_unit", .num 2.5)]]⟩

/-- The expected output of the end-to-end livestock example: livestock
emissions 25, every other subtotal 0, total 25. -/
def c10out : EmissionRecord :=
  { operation_id := .num 1
    fuel_emissions := 0
    vehicle_emissions := 0
    refrigerant_emissions := 0
    livestock_emissions := 25
    fertilizer_emissions := 0
    waste_emissions := 0
    tru_emissions := 0
    total_emissions := 25 }

/-- The subtotal expressions the calculator builds for `c7rec` (before
rational arithmetic is evaluated). -/
def c7sub : Subtotals :=
  ⟨100 * (1.2 + 1.2) / 2, 0, 0 * 0 * 0 * 0, 0 * 0, 0 * 0, 0 * 0,
   (0 * 0 * 0 * 0 * 0 + 0 * 0 * 0) * 0⟩

/-- The subtotal expressions the calculator builds for `c10rec`. -/
def c10sub : Subtotals :=
  ⟨0 * (0 + 0) / 2, 0, 0 * 0 * 0 * 0, 10 * 2.5, 0 * 0, 0 * 0,
   (0 * 0 * 0 * 0 * 0 + 0 * 0 * 0) * 0⟩

/-- The subtotal expressions the calculator builds for `nullRec` against
all-empty reference tables. -/
def zeroSub : Subtotals :=
  ⟨0 * (0 + 0) / 2, 0, 0 * 0 * 0 * 0, 0 * 0, 0 * 0, 0 * 0,
   (0 * 0 * 0 * 0 * 0 + 0 * 0 * 0) * 0⟩

/-- The output record the calculator produces for `nullRec` against
all-empty reference tables. -/
def zeroOut : EmissionRecord := mkEmissionRecord (.num 1) zeroSub

/-! Shared lemmas about the embedding. -/

@[simp] theorem pyOkBind {α β : Type} (a : α) (f : α → Except PyErr β) :
    (Except.ok a : Except PyErr α) >>= f = f a := rfl

@[simp] theorem pyErrBind {α β : Type} (e : PyErr) (f : α → Except PyErr β) :
    (Except.error e : Except PyErr α) >>= f = Except.error e := rfl

theorem andMask_alltrue {α : Type} (l : List α) (p : α → Bool) :
    andMask (l.map fun _ => true) (l.map p) = l.map p := by
  induction l with
  | nil => rfl
  | cons a l ih =>
      simp only [List.map_cons, andMask, List.zipWith_cons_cons, Bool.true_and]
      exact congrArg _ ih

theorem applyMask_map (l : List Dict) (p : Dict → Bool) :
    applyMask l (l.map p) = l.filter p := by
  induction l with
  | nil => rfl
  | cons a l ih =>
      simp only [List.map_cons, applyMask, List.filter_cons]
      by_cases h : p a
      · simp [h, ih]
      · simp [h, ih]

@[simp] theorem pyPure {α : Type} (a : α) :
    (pure a : Except PyErr α) = Except.ok a := rfl

theorem computeMask_single_eq (df : DataFrame) (col : String) (v : Value)
    (hcol : df.columns.contains col = true) :
    computeMask df [(col, .lit v)] =
      .ok (df.rows.map (fun r => valueEq (getCell r col) v)) := by
  simp only [computeMask, critMask, getColVals]
  rw [hcol, if_pos rfl]
  simp only [pyOkBind, pyPure, List.map_map]
  rw [andMask_alltrue]
  rfl

theorem perform_lookup_single_eq (df : DataFrame) (col : String) (v : Value)
    (oc : Option (List String))
    (hcol : df.columns.contains col = true)
    (hoc : ∀ cols, oc = some cols → cols.all (fun k => df.columns.contains k) = true) :
    perform_lookup (.df df) (.dict [(col, .lit v)]) oc fmtDict =
      .ok (.listRes ((df.rows.filter (fun r => valueEq (getCell r col) v)).map
        (projectRow df oc))) := by
  simp only [perform_lookup]
  rw [computeMask_single_eq df col v hcol, pyOkBind,
    applyMask_map df.rows (fun r => valueEq (getCell r col) v)]
  rw [if_neg (by decide : ¬ (fmtDict = fmtDf))]
  rw [if_pos trivial]
  cases hfe : df.rows.filter (fun r => valueEq (getCell r col) v) with
  | nil => simp
  | cons r0 rest =>
      simp only [List.length_cons]
      rw [if_pos (Nat.succ_pos _)]
      cases oc with
      | none =>
          dsimp only
          simp [projectRow, rowToDict]
      | some cols =>
          dsimp only
          rw [hoc cols rfl, if_pos rfl]
          simp [projectRow]

theorem opMask_error_of_invalid (df : DataFrame) (col op : String) (v : Value)
    (h : validOp op = false) : opMask df col op v = .error .valueError := by
  simp only [validOp, Bool.or_eq_false_iff, decide_eq_false_iff_not] at h
  obtain ⟨⟨⟨⟨h1, h2⟩, h3⟩, h4⟩, h5⟩ := h
  unfold opMask
  rw [if_neg h1, if_neg h2, if_neg h3, if_neg h4, if_neg h5]

theorem opMask_error_of_missing (df : DataFrame) (col op : String) (v : Value)
    (h : df.columns.contains col = false) :
    ∃ e, opMask df col op v = .error e := by
  have hg : getColVals df col = .error .keyError := by
    simp only [getColVals]
    rw [h]
    rfl
  unfold opMask
  split_ifs <;>
    first
      | exact ⟨.keyError, by rw [hg]; rfl⟩
      | exact ⟨.valueError, rfl⟩

theorem critMask_error_of_bad (df : DataFrame) (col : String) (cv : CritVal)
    (h : isBadCrit df (col, cv) = true) :
    ∃ e, critMask df col cv = .error e := by
  cases cv with
  | lit v =>
      simp only [isBadCrit, Bool.not_eq_true'] at h
      refine ⟨.keyError, ?_⟩
      simp only [critMask, getColVals]
      rw [h]
      rfl
  | tup2 op v =>
      simp only [isBadCrit, Bool.or_eq_true, Bool.not_eq_true'] at h
      cases h with
      | inl h => exact ⟨.valueError, opMask_error_of_invalid df col op v h⟩
      | inr h => exact opMask_error_of_missing df col op v h
  | tup3 c2 op v =>
      simp only [isBadCrit, Bool.or_eq_true, Bool.not_eq_true'] at h
      cases h with
      | inl h => exact ⟨.valueError, opMask_error_of_invalid df c2 op v h⟩
      | inr h => exact opMask_error_of_missing df c2 op v h
  | tupBad => exact ⟨.valueError, rfl⟩

theorem computeMask_error_of_bad (df : DataFrame) :
    ∀ (c : Criteria), c.any (isBadCrit df) = true → ∃ e, computeMask df c = .error e := by
  intro c
  induction c with
  | nil => intro h; simp [List.any] at h
  | cons p rest ih =>
      obtain ⟨col, cv⟩ := p
      intro h
      simp only [List.any_cons, Bool.or_eq_true] at h
      cases hcm : critMask df col cv with
      | error e => exact ⟨e, by simp only [computeMask]; rw [hcm]; rfl⟩
      | ok m =>
          cases h with
          | inl hbad =>
              obtain ⟨e, he⟩ := critMask_error_of_bad df col cv hbad
              rw [hcm] at he
              exact Except.noConfusion he
          | inr hrest =>
              obtain ⟨e, he⟩ := ih hrest
              exact ⟨e, by simp only [computeMask]; rw [hcm, pyOkBind, he]; rfl⟩

theorem runFallbacks_eq (df : DataFrame) (c : Criteria) (oc : Option (List String)) :
    ∀ (fbs : List Criteria),
    (∀ f ∈ fbs, isListOk (perform_lookup (.df df) (.dict (critUpdate c f)) oc fmtDict) = true) →
    runFallbacks (.df df) c oc fmtDict fbs =
      .ok (.listRes (firstNonEmpty (fbs.map (attemptRows df c oc)))) := by
  intro fbs
  induction fbs with
  | nil => intro _; rfl
  | cons f rest ih =>
      intro hall
      have hf := hall f (List.mem_cons_self f rest)
      cases hpl : perform_lookup (.df df) (.dict (critUpdate c f)) oc fmtDict with
      | error e => rw [hpl] at hf; simp [isListOk] at hf
      | ok r =>
          cases r with
          | dfRes d => rw [hpl] at hf; simp [isListOk] at hf
          | listRes l =>
              have hrest := fun f2 h2 => hall f2 (List.mem_cons_of_mem f h2)
              simp only [runFallbacks]
              rw [hpl, pyOkBind]
              simp only [pyTruthy, pyOkBind]
              have ha : attemptRows df c oc f = l := by simp [attemptRows, hpl]
              cases l with
              | nil =>
                  rw [if_neg (by simp)]
                  rw [ih hrest]
                  simp only [List.map_cons, ha, firstNonEmpty]
                  rfl
              | cons d0 ds =>
                  rw [if_pos (by simp)]
                  simp only [List.map_cons, ha, firstNonEmpty]
                  rw [if_neg (by simp)]
                  rfl

theorem computeRecord_total (fd gwp refrig vi tru farm : DataFrame) (y : ℤ)
    (r : OpRecord) (rec : EmissionRecord)
    (h : computeRecord fd gwp refrig vi tru farm y r = .ok rec) :
    rec.total_emissions = rec.fuel_emissions + rec.vehicle_emissions +
      rec.refrigerant_emissions + rec.livestock_emissions + rec.fertilizer_emissions +
      rec.waste_emissions + rec.tru_emissions := by
  unfold computeRecord at h
  cases hs : computeSubtotals fd gwp refrig vi tru farm y r with
  | error e => rw [hs] at h; exact Except.noConfusion h
  | ok s =>
      rw [hs] at h
      simp only [Except.map] at h
      cases h
      rfl

theorem processRecords_mem (f : OpRecord → Except PyErr EmissionRecord) :
    ∀ (l : List OpRecord) (out : List EmissionRecord), processRecords f l = .ok out →
      ∀ rec ∈ out, ∃ r, f r = .ok rec := by
  intro l
  induction l with
  | nil =>
      intro out h rec hrec
      simp only [processRecords] at h
      cases h
      simp at hrec
  | cons a l ih =>
      intro out h rec hrec
      simp only [processRecords] at h
      cases hf : f a with
      | error e => rw [hf, pyErrBind] at h; exact Except.noConfusion h
      | ok rec1 =>
          rw [hf, pyOkBind] at h
          cases hrest : processRecords f l with
          | error e => rw [hrest, pyErrBind] at h; exact Except.noConfusion h
          | ok os =>
              rw [hrest, pyOkBind] at h
              cases h
              cases List.mem_cons.mp hrec with
              | inl hh => exact ⟨a, by rw [hf, hh]⟩
              | inr hh => exact ih os hrest rec hh

/-! The claims. -/

/-- Claim C1: for every reference table, column present in the table and
value, an equality lookup in the default dictionary-list output format
returns exactly the rows where the column equals the value, in original row
order, each row projected to the requested output columns when given. -/
theorem c1_equality_lookup_returns_matching_rows (df : DataFrame) (col : String)
    (v : Value) (oc : Option (List String))
    (hcol : df.columns.contains col = true)
    (hoc : ∀ cols, oc = some cols → cols.all (fun k => df.columns.contains k) = true) :
    lookup (.df df) (.dict [(col, .lit v)]) oc fmtDict none =
      .listRes ((df.rows.filter (fun r => valueEq (getCell r col) v)).map
        (projectRow df oc)) := by
  simp only [lookup, lookupExc]
  rw [perform_lookup_single_eq df col v oc hcol hoc]
  simp only [pyOkBind, pyTruthy]
  cases hfe : df.rows.filter (fun r => valueEq (getCell r col) v) with
  | nil =>
      simp only [List.map_nil]
      rw [if_neg (by simp)]
      simp only [emptyResult]
      rw [if_neg (by decide : ¬ (fmtDict = fmtDf))]
      rfl
  | cons r0 rest => simp

/-- Witness for C1 on a concrete table: the rows with column a equal to 1,
projected to column b. -/
theorem c1_witness_eval :
    c1df.columns.contains "a" = true ∧
    lookup (.df c1df) (.dict [("a", .lit (.num 1))]) (some ["b"]) fmtDict none =
      .listRes ((c1df.rows.filter (fun r => valueEq (getCell r "a") (.num 1))).map
        (projectRow c1df (some ["b"]))) :=
  ⟨by decide, c1_equality_lookup_returns_matching_rows c1df "a" (.num 1) (some ["b"])
    (by decide)
    (by intro cols h; injection h with h2; subst h2; decide)⟩

/-- Claim C2: in the dictionary-list format, when the primary criteria
match zero rows, each fallback overlay is merged onto the original
criteria, the attempts are tried in order, the result is the rows of the
first attempt that matches at least one row, and the empty list when every
attempt matches zero rows. -/
theorem c2_fallback_merged_on_original_first_nonempty (df : DataFrame)
    (c : Criteria) (oc : Option (List String)) (fbs : List Criteria)
    (hp : perform_lookup (.df df) (.dict c) oc fmtDict = .ok (.listRes []))
    (hf : ∀ f ∈ fbs,
      isListOk (perform_lookup (.df df) (.dict (critUpdate c f)) oc fmtDict) = true) :
    lookup (.df df) (.dict c) oc fmtDict (some fbs) =
      .listRes (firstNonEmpty (fbs.map (attemptRows df c oc))) := by
  simp only [lookup, lookupExc]
  rw [hp, pyOkBind]
  simp only [pyTruthy, pyOkBind]
  rw [if_neg (by simp)]
  rw [runFallbacks_eq df c oc fbs hf]

/-- Witness for C2 on a concrete table: the primary criterion matches
nothing, the first fallback attempt matches one row and its rows are
returned. -/
theorem c2_witness_eval :
    perform_lookup (.df c1df) (.dict [("a", .lit (.num 5))]) (some ["b"]) fmtDict =
      .ok (.listRes []) ∧
    (∀ f ∈ ([[("a", CritVal.lit (.num 2))], [("a", CritVal.lit (.num 9))]] : List Criteria),
      isListOk (perform_lookup (.df c1df)
        (.dict (critUpdate [("a", CritVal.lit (.num 5))] f)) (some ["b"]) fmtDict) = true) ∧
    lookup (.df c1df) (.dict [("a", .lit (.num 5))]) (some ["b"]) fmtDict
      (some [[("a", .lit (.num 2))], [("a", .lit (.num 9))]]) =
      .listRes (firstNonEmpty
        (([[("a", CritVal.lit (.num 2))], [("a", CritVal.lit (.num 9))]] : List Criteria).map
          (attemptRows c1df [("a", CritVal.lit (.num 5))] (some ["b"])))) :=
  ⟨by decide, by decide,
    c2_fallback_merged_on_original_first_nonempty c1df [("a", .lit (.num 5))]
      (some ["b"]) [[("a", .lit (.num 2))], [("a", .lit (.num 9))]]
      (by decide) (by decide)⟩

/-- Claim C3 (code bug): on a table whose single row matches the criterion,
the internal matching pass does produce the matching rows as a DataFrame,
but the public lookup in the DataFrame output format returns an empty
DataFrame: the truthiness test on the DataFrame result raises ValueError
(the truth value of a DataFrame is ambiguous), which lookup's except clause
converts to the empty result. -/
theorem c3_dataframe_format_bug :
    perform_lookup (.df c3df) (.dict [("c", .lit (.num 1))]) none fmtDf =
      .ok (.dfRes c3df) ∧
    lookup (.df c3df) (.dict [("c", .lit (.num 1))]) none fmtDf none =
      .dfRes ⟨[], []⟩ :=
  ⟨rfl, rfl⟩

/-- Claim C4: a criterion whose evaluation fails — an unknown column name,
an invalid comparator token, or a criteria tuple of length other than 2 or
3 — makes lookup return the empty result for the requested output format;
no such error escapes lookup (its result type is total). -/
theorem c4_predicate_failure_yields_empty (df : DataFrame) (c : Criteria)
    (oc : Option (List String)) (fmt : String) (fbs : Option (List Criteria))
    (h : c.any (isBadCrit df) = true) :
    lookup (.df df) (.dict c) oc fmt fbs = emptyResult fmt := by
  obtain ⟨e, he⟩ := computeMask_error_of_bad df c h
  have hp : perform_lookup (.df df) (.dict c) oc fmt = .error e := by
    simp only [perform_lookup]
    rw [he]
    rfl
  simp only [lookup, lookupExc]
  rw [hp, pyErrBind]

/-- Witness for C4: an unknown column name on a concrete table yields the
empty list. -/
theorem c4_witness_eval :
    ([("nope", CritVal.lit (.num 1))] : Criteria).any (isBadCrit c1df) = true ∧
    lookup (.df c1df) (.dict [("nope", .lit (.num 1))]) none fmtDict none =
      emptyResult fmtDict :=
  ⟨by decide, c4_predicate_failure_yields_empty c1df [("nope", .lit (.num 1))]
    none fmtDict none (by decide)⟩

/-- Counterexample to Claim C5 as stated: calling lookup with a table
argument that is not a DataFrame does not raise TypeError to the caller —
the TypeError raised inside the internal matching pass is caught by
lookup's except clause and the call returns the empty list normally. -/
theorem c5_counterexample_type_error_swallowed :
    perform_lookup .notDf (.dict []) none fmtDict = .error .typeError ∧
    lookup .notDf (.dict []) none fmtDict none = .listRes [] :=
  ⟨rfl, rfl⟩

/-- Claim C5 as amended: a table argument that is not a DataFrame, or a
criteria argument that is not a mapping, raises TypeError inside
`_perform_lookup`, but `lookup` catches it at its boundary and returns the
empty result for the requested format; no TypeError propagates to the
caller. -/
theorem c5_amended_invalid_args_empty :
    (∀ (crit : CritArg) (oc : Option (List String)) (fmt : String)
      (fbs : Option (List Criteria)),
      perform_lookup .notDf crit oc fmt = .error .typeError ∧
      lookup .notDf crit oc fmt fbs = emptyResult fmt) ∧
    (∀ (d : DataFrame) (oc : Option (List String)) (fmt : String)
      (fbs : Option (List Criteria)),
      perform_lookup (.df d) .notDict oc fmt = .error .typeError ∧
      lookup (.df d) .notDict oc fmt fbs = emptyResult fmt) :=
  ⟨fun _ _ _ _ => ⟨rfl, rfl⟩, fun _ _ _ _ => ⟨rfl, rfl⟩⟩

/-- Claim C6: every output record of the calculator has its total equal to
the sum of its seven subtotals (exactly, over the rationals, since the
total is computed as the direct sum). -/
theorem c6_total_equals_sum_of_subtotals (ops : List OpRecord)
    (fd gwp refrig vi tru farm : DataFrame) (y : ℤ)
    (out : List EmissionRecord) (rec : EmissionRecord)
    (h : calculate_annual_emissions ops fd gwp refrig vi tru farm y = .ok out)
    (hm : rec ∈ out) :
    rec.total_emissions = rec.fuel_emissions + rec.vehicle_emissions +
      rec.refrigerant_emissions + rec.livestock_emissions + rec.fertilizer_emissions +
      rec.waste_emissions + rec.tru_emissions := by
  obtain ⟨r, hr⟩ := processRecords_mem _ ops out h rec hm
  exact computeRecord_total fd gwp refrig vi tru farm y r rec hr

/-- Witness for C6 on a concrete run: the all-empty record produces one
output record whose total is the sum of its subtotals. -/
theorem c6_witness_eval :
    calculate_annual_emissions [nullRec] emptyDf emptyDf emptyDf emptyDf emptyDf
      emptyDf 2024 = .ok [zeroOut] ∧
    zeroOut.total_emissions = zeroOut.fuel_emissions + zeroOut.vehicle_emissions +
      zeroOut.refrigerant_emissions + zeroOut.livestock_emissions +
      zeroOut.fertilizer_emissions + zeroOut.waste_emissions + zeroOut.tru_emissions :=
  ⟨rfl, c6_total_equals_sum_of_subtotals [nullRec] emptyDf emptyDf emptyDf emptyDf
    emptyDf emptyDf 2024 [zeroOut] zeroOut rfl (by simp)⟩

/-- Claim C7: whenever the record's target completion year equals the
current calendar year, the forecast fuel emission factor equals the
current-year factor; and on the concrete example — one matching fuel row
with a current-year factor of 1.2 and no target-year column, current year
2024, target year 2024, fuel amount 100 — the record's fuel emissions are
100 times (1.2 + 1.2) / 2 = 120. -/
theorem c7_target_equals_current_year_reuses_factor :
    (∀ (fd : DataFrame) (r : OpRecord) (y : ℤ), r.target_completion_year = y →
      (resolveFuelFactors fd r y).2 = (resolveFuelFactors fd r y).1) ∧
    calculate_annual_emissions [c7rec] c7fuel emptyDf emptyDf emptyDf emptyDf
      emptyDf 2024 = .ok [c7out] := by
  constructor
  · intro fd r y h
    simp only [resolveFuelFactors, h]
    split_ifs with hc
    · rfl
    · rfl
  · have h : calculate_annual_emissions [c7rec] c7fuel emptyDf emptyDf emptyDf
        emptyDf emptyDf 2024 = .ok [mkEmissionRecord (.num 1) c7sub] := rfl
    rw [h]
    have h2 : mkEmissionRecord (.num 1) c7sub = c7out := by
      simp only [mkEmissionRecord, c7sub, c7out]
      norm_num
    rw [h2]

/-- Witness for C7: the fuel-factor resolution of the concrete example, in
which the forecast factor equals the current-year factor. -/
theorem c7_witness_eval :
    c7rec.target_completion_year = 2024 ∧
    (resolveFuelFactors c7fuel c7rec 2024).2 = (resolveFuelFactors c7fuel c7rec 2024).1 :=
  ⟨rfl, c7_target_equals_current_year_reuses_factor.1 c7fuel c7rec 2024 rfl⟩

/-- Claim C8: a record whose resolved vehicle fuel efficiency is 0 gets a
vehicle-emissions subtotal of 0, with no division-by-zero failure,
regardless of the operating distance and the fuel emission factors. -/
theorem c8_zero_fuel_efficiency_zero_vehicle_emissions (vi : DataFrame)
    (r : OpRecord) (dist fore cur : ℚ)
    (h : resolveVehicleFuelEfficiency vi r = .num 0) :
    vehicleEmissions (resolveVehicleFuelEfficiency vi r) dist fore cur = .ok 0 := by
  rw [h]
  simp [vehicleEmissions, pyTruthyVal]

/-- Witness for C8: against an empty vehicle table the efficiency resolves
to 0 and the vehicle subtotal is 0 even with a nonzero distance. -/
theorem c8_witness_eval :
    resolveVehicleFuelEfficiency emptyDf nullRec = .num 0 ∧
    vehicleEmissions (resolveVehicleFuelEfficiency emptyDf nullRec) 5 1 1 = .ok 0 :=
  ⟨rfl, c8_zero_fuel_efficiency_zero_vehicle_emissions emptyDf nullRec 5 1 1 rfl⟩

/-- Claim C9: the calculator's stage-2 normalization coerces each of the
nine numeric input fields to a number, treating any value that fails
coercion as 0; the normalization is a total function and never raises. -/
theorem c9_numeric_normalization_defaults_to_zero :
    (∀ r : OpRecord, normalizeRecord r =
      { fuel_amount := toNumericOr0 r.fuel_amount
        refrigerant_charge := toNumericOr0 r.refrigerant_charge
        number_of_refrigerators := toNumericOr0 r.number_of_refrigerators
        operating_distance := toNumericOr0 r.operating_distance
        tru_number_of_vehicle_units := toNumericOr0 r.tru_number_of_vehicle_units
        tru_refrigerant_charge := toNumericOr0 r.tru_refrigerant_charge
        livestock_count := toNumericOr0 r.livestock_count
        fertilizer_amount := toNumericOr0 r.fertilizer_amount
        waste_amount := toNumericOr0 r.waste_amount }) ∧
    (∀ v : Value, toNumeric v = none → toNumericOr0 v = 0) :=
  ⟨fun _ => rfl, fun v h => by simp [toNumericOr0, h]⟩

/-- Witness for C9: a non-numeric string fails coercion and normalizes
to 0. -/
theorem c9_witness_eval :
    toNumeric (.str "abc") = none ∧ toNumericOr0 (.str "abc") = 0 :=
  ⟨rfl, c9_numeric_normalization_defaults_to_zero.2 (.str "abc") rfl⟩

/-- Claim C10: the end-to-end livestock example — a farm table with one
Cattle row at 2.5 per unit, one record with 10 head of Cattle and all
other fields empty, every other table empty — produces exactly one output
record with livestock emissions 25, all other subtotals 0 and total 25. -/
theorem c10_livestock_end_to_end :
    calculate_annual_emissions [c10rec] emptyDf emptyDf emptyDf emptyDf emptyDf
      c10farm 2024 = .ok [c10out] := by
  have h : calculate_annual_emissions [c10rec] emptyDf emptyDf emptyDf emptyDf
      emptyDf c10farm 2024 = .ok [mkEmissionRecord (.num 1) c10sub] := rfl
  rw [h]
  have h2 : mkEmissionRecord (.num 1) c10sub = c10out := by
    simp only [mkEmissionRecord, c10sub, c10out]
    norm_num
  rw [h2]

end EmCalc
